/-
Verification of the storage layer of the exam-wishes message board
(`src/app.py`).  The storage module consists of `read_messages`,
`write_messages`, `append_message`, `delete_message_by_id` (lines 194-260)
and the admin gate `get_admin_secret` / `is_admin_key_valid`
(lines 262-269).

Shallow embedding conventions:

* Python/JSON values that flow through the storage layer are modelled by
  the inductive `JValue` (every value the layer touches is JSON-encodable).
* The Google-Sheets worksheet is modelled as a list of rows of cell
  strings (`List (List String)`); `getAllRecords` models
  `worksheet.get_all_records()` (first row is the header, later rows are
  zipped against it, short rows padded with "").  The numeric coercion the
  sheets client can apply to number-shaped cells is not modelled: cells
  are strings, which is the shape produced by every write path of the
  program and exercised by every claim.
* The per-call backend environment is `Cfg`: whether the cached worksheet
  handle (`st.session_state['google_worksheet']`) is present, and whether
  the remote calls / local file I-O of this call succeed.  When a remote
  flag is false the corresponding remote call raises, which the source
  catches with its bare `except Exception` blocks; the model collapses a
  failing remote write to failing at the first remote call (`clear`),
  before the sheet is mutated - later failure points differ only in the
  partial junk left on the sheet, which no operation of the program ever
  observes without a subsequent full rewrite.
* The mutable backing stores are `St`: the sheet rows and the fallback
  file (`messages.json`), the latter as `none` (file absent),
  `some none` (present but unreadable/unparseable) or `some (some v)`
  (parses to the JSON value `v`).  `json.dump` followed by `json.load`
  is modelled as the identity on `JValue`.
* Uncaught Python exceptions are modelled with `Except PyErr`:
  `read_messages` and `write_messages` catch every exception internally
  and are therefore total functions, while `append_message` and
  `delete_message_by_id` can raise (`msgs.append` on a non-list,
  `m.get` on a non-dict) because nothing in them catches.
-/
import Mathlib

namespace GoodLuckBoard

/-- JSON value: the space of Python values handled by the storage layer. -/
inductive JValue where
  | null : JValue
  | bool : Bool → JValue
  | num : Int → JValue
  | str : String → JValue
  | arr : List JValue → JValue
  | obj : List (String × JValue) → JValue

/-- A well-formed message record as produced by the compose form
(`entry = {"id": ..., "name": ..., "recipient": ..., "message": ...,
"tone": ..., "timestamp": ...}`, src/app.py lines 1056-1063). -/
structure Message where
  id : String
  name : String
  recipient : String
  message : String
  tone : String
  timestamp : String

/-- A row fetched from the sheet as a field mapping, as returned by
`worksheet.get_all_records()`: each of the six column keys is either
present with a cell string or absent. -/
structure RawRecord where
  ID : Option String
  Name : Option String
  Recipient : Option String
  Message : Option String
  Tone : Option String
  Timestamp : Option String

/-- Uncaught Python exception kinds reachable in the storage layer. -/
inductive PyErr where
  | attributeError : PyErr
  | typeError : PyErr
deriving DecidableEq

/-- First-match lookup in a JSON object's field list (Python `dict` keys
are unique, so first-match agrees with `dict.get`). -/
def lookupField : List (String × JValue) → String → Option JValue
  | [], _ => none
  | (k', v) :: rest, k => if k' == k then some v else lookupField rest k

/-- `v.get(k)` for an object value; `none` models Python `None`
(missing key).  Only ever applied to objects by the program. -/
def jLookup (v : JValue) (k : String) : Option JValue :=
  match v with
  | .obj fields => lookupField fields k
  | _ => none

/-- Is this Python value a `dict`?  (`msg.get` raises on anything else.) -/
def isObj : JValue → Bool
  | .obj _ => true
  | _ => false

/-- Is this Python value a `list`? -/
def isArr : JValue → Bool
  | .arr _ => true
  | _ => false

/-- Coercion of a Python value to a sheet cell by the sheets API.
Every write path of the program only ever sends strings; the other
cases record a fixed abstraction of the API's coercion. -/
def jToCell : JValue → String
  | .str s => s
  | .num n => toString n
  | .bool true => "TRUE"
  | .bool false => "FALSE"
  | .null => ""
  | .arr _ => ""
  | .obj _ => ""

/-- `msg.get(k, dflt)` followed by cell coercion, as used by the remote
branch of `write_messages` (src/app.py lines 232-239). -/
def cellGet (m : JValue) (k dflt : String) : String :=
  match jLookup m k with
  | some v => jToCell v
  | none => dflt

/-- Truthiness of Python `v == t` where `t` is a string and `v` is the
result of `m.get("id")` (possibly `None`): only a string compares equal. -/
def pyEqStr (v : Option JValue) (t : String) : Bool :=
  match v with
  | some (.str s) => s == t
  | _ => false

/-- Python `str.strip()`: drop leading and trailing whitespace.
Implemented structurally over the character list so that it evaluates by
kernel reduction (Lean's `String.trim` is extensionally the same but is
built on well-founded recursion and does not reduce). -/
def pyStrip (s : String) : String :=
  ⟨(((s.data.dropWhile Char.isWhitespace).reverse.dropWhile Char.isWhitespace).reverse)⟩

/-- The fixed header row written by `init_google_sheets` and
`write_messages` (src/app.py lines 185 and 229). -/
def HEADER : List String := ["ID", "Name", "Recipient", "Message", "Tone", "Timestamp"]

/-- Cell of `row` under column `k` of header `hdr`; rows shorter than the
header are padded with `""`, matching `get_all_records`. -/
def lookupCell (hdr row : List String) (k : String) : Option String :=
  match hdr.findIdx? (fun h => h == k) with
  | none => none
  | some i => some (row.getD i "")

/-- One data row of the sheet turned into a field mapping keyed by the
header row, as `get_all_records` does. -/
def recordOfRow (hdr row : List String) : RawRecord :=
  { ID := lookupCell hdr row "ID"
  , Name := lookupCell hdr row "Name"
  , Recipient := lookupCell hdr row "Recipient"
  , Message := lookupCell hdr row "Message"
  , Tone := lookupCell hdr row "Tone"
  , Timestamp := lookupCell hdr row "Timestamp" }

/-- `worksheet.get_all_records()`: first row is the header, every later
row becomes a field mapping. -/
def getAllRecords (rows : List (List String)) : List RawRecord :=
  match rows with
  | [] => []
  | hdr :: data => data.map (recordOfRow hdr)

/-- The row guard of `read_messages` (src/app.py line 202):
`record.get("ID") and record.get("ID") != "ID" and record.get("ID").strip()`
is truthy iff the ID field is present, non-empty, not the literal header
value "ID", and not whitespace-only. -/
def keepRow (r : RawRecord) : Bool :=
  match r.ID with
  | none => false
  | some s => (s != "") && (s != "ID") && (pyStrip s != "")

/-- The per-record translation of `read_messages` (src/app.py lines
203-210): missing fields are replaced by the dictionary defaults. -/
def rowToMessage (r : RawRecord) : Message :=
  { id := r.ID.getD ""
  , name := r.Name.getD "Anonymous"
  , recipient := r.Recipient.getD "Anyone"
  , message := r.Message.getD ""
  , tone := r.Tone.getD ""
  , timestamp := r.Timestamp.getD "" }

/-- The message dictionary built by `read_messages` (and by the compose
form), with the key order of the source literal. -/
def msgObj (m : Message) : JValue :=
  .obj [ ("id", .str m.id), ("name", .str m.name), ("recipient", .str m.recipient)
       , ("message", .str m.message), ("tone", .str m.tone), ("timestamp", .str m.timestamp) ]

/-- The cells appended for one message by the remote branch of
`write_messages` (src/app.py lines 232-239). -/
def msgToCells (m : JValue) : List String :=
  [ cellGet m "id" "", cellGet m "name" "Anonymous", cellGet m "recipient" "Anyone"
  , cellGet m "message" "", cellGet m "tone" "", cellGet m "timestamp" "" ]

/-- Per-call backend environment: is the cached worksheet handle present,
and do the remote calls / local file write of this call succeed. -/
structure Cfg where
  wsPresent : Bool
  remoteReadOk : Bool
  remoteWriteOk : Bool
  fileWriteOk : Bool

/-- Mutable backing stores: the sheet rows, and the fallback file
(`none` = absent, `some none` = unreadable or unparseable,
`some (some v)` = parses to `v`). -/
structure St where
  sheet : List (List String)
  file : Option (Option JValue)

/-- `read_messages` (src/app.py lines 194-221).  With a worksheet handle
and a working remote read it returns the guarded, default-filled rows of
the sheet; on a missing handle or a failing remote call it falls through
to the local file, returning its parsed contents unvalidated, or `[]`
when the file is absent or unparseable.  Total: every exception site in
the source is inside a `try`/`except` of this function. -/
def read_messages (c : Cfg) (s : St) : JValue :=
  if c.wsPresent && c.remoteReadOk then
    .arr (((getAllRecords s.sheet).filter keepRow).map (fun r => msgObj (rowToMessage r)))
  else
    match s.file with
    | some (some v) => v
    | _ => .arr []

/-- `write_messages` (src/app.py lines 223-248).  With a worksheet handle
and a working remote write (and list elements that are dicts, so that
`msg.get` does not raise) it rewrites the sheet as header plus one row
per message and returns; otherwise it falls through to overwriting the
local file, and swallows a failing file write.  Total: both backends'
failures are caught by the source's `try`/`except` blocks. -/
def write_messages (c : Cfg) (s : St) (msgs : List JValue) : St :=
  if c.wsPresent && c.remoteWriteOk && msgs.all isObj then
    { s with sheet := HEADER :: msgs.map msgToCells }
  else if c.fileWriteOk then
    { s with file := some (some (.arr msgs)) }
  else
    s

/-- `append_message` (src/app.py lines 250-254): read, `msgs.append(entry)`,
write.  `append` is only an attribute of lists, so a non-list read result
raises `AttributeError` out of the function (nothing catches here). -/
def append_message (c : Cfg) (s : St) (entry : JValue) : Except PyErr St :=
  match read_messages c s with
  | .arr l => .ok (write_messages c s (l ++ [entry]))
  | _ => .error .attributeError

/-- The list comprehension of `delete_message_by_id`
(`[m for m in msgs if m.get("id") != msg_id]`, src/app.py line 259):
keeps the dicts whose `id` value differs from `msg_id`, raising
`AttributeError` at the first non-dict element. -/
def deleteFilter (x : String) : List JValue → Except PyErr (List JValue)
  | [] => .ok []
  | m :: rest =>
    match m with
    | .obj fields =>
        (deleteFilter x rest).map (fun tail =>
          if pyEqStr (jLookup (JValue.obj fields) "id") x then tail
          else JValue.obj fields :: tail)
    | _ => .error PyErr.attributeError

/-- `delete_message_by_id` (src/app.py lines 256-260): read, filter,
write.  Iterating a non-list read result follows Python semantics:
iterating a dict yields its keys (strings, on which `.get` raises unless
the dict is empty), iterating a string yields characters (same, unless
empty), and other values are not iterable at all. -/
def delete_message_by_id (c : Cfg) (s : St) (x : String) : Except PyErr St :=
  match read_messages c s with
  | .arr l =>
    match deleteFilter x l with
    | .ok kept => .ok (write_messages c s kept)
    | .error e => .error e
  | .obj [] => .ok (write_messages c s [])
  | .obj _ => .error .attributeError
  | .str t => if t == "" then .ok (write_messages c s []) else .error .attributeError
  | _ => .error .typeError

/-- `get_admin_secret` (src/app.py lines 262-263): the `ADMIN_KEY` entry
of the secrets store (`none` when the key is not configured). -/
def get_admin_secret (secrets : Option String) : Option String :=
  secrets

/-- `is_admin_key_valid` (src/app.py lines 265-269) as a truthiness
decision: `if not secret: return False` rejects both a missing and an
empty secret; `provided_key and provided_key == secret` is truthy iff the
provided key is non-empty and equals the secret. -/
def is_admin_key_valid (secrets : Option String) (provided_key : String) : Bool :=
  match get_admin_secret secrets with
  | none => false
  | some secret =>
    if secret == "" then false
    else (provided_key != "") && (provided_key == secret)

/-- Spec-side row guard, following the spec's words for the primary read
path: skip a fetched row whose ID field "is the literal header value or
is empty/whitespace" (a row with no ID field at all has an empty ID
field).  To be compared with the source-derived `keepRow`. -/
def specSheetKeep (r : RawRecord) : Bool :=
  match r.ID with
  | none => false
  | some s => !((s == "ID") || (s == "") || (pyStrip s == ""))

/-- Spec-side admin check, following the claim's words: grant iff a
secret is configured and the provided key equals it by exact string
comparison.  To be compared with the source-derived `is_admin_key_valid`. -/
def specValid (secrets : Option String) (k : String) : Bool :=
  match secrets with
  | none => false
  | some s => k == s

/-- A message id as generated by the program (`str(uuid.uuid4())`):
not the literal header value and not whitespace-only.  This is the
well-formedness the round-trip claims assume of records. -/
def goodId (m : Message) : Bool :=
  (m.id != "ID") && (pyStrip m.id != "")

/-! ### Concrete fixtures used by witnesses and counterexamples -/

/-- A well-formed submission (the record of spec Scenario A). -/
def m1 : Message :=
  { id := "id-1", name := "Ann", recipient := "Bob"
  , message := "Good luck!", tone := "calm", timestamp := "2024-01-01 00:00:00 UTC" }

/-- A second well-formed submission with a distinct id. -/
def m2 : Message :=
  { id := "id-2", name := "Cy", recipient := "Dee"
  , message := "You can do it", tone := "funny", timestamp := "2024-01-02 00:00:00 UTC" }

/-- A submission whose id collides with `m1`'s. -/
def mDup : Message :=
  { id := "id-1", name := "Eve", recipient := "Fay"
  , message := "Again", tone := "formal", timestamp := "2024-01-03 00:00:00 UTC" }

/-- No cached worksheet handle; local file I-O works. -/
def cLocal : Cfg :=
  { wsPresent := false, remoteReadOk := false, remoteWriteOk := false, fileWriteOk := true }

/-- Worksheet handle present and every backend call succeeding. -/
def cRemote : Cfg :=
  { wsPresent := true, remoteReadOk := true, remoteWriteOk := true, fileWriteOk := true }

/-- Worksheet handle present but remote calls fail; file I-O works. -/
def cRemoteDown : Cfg :=
  { wsPresent := true, remoteReadOk := false, remoteWriteOk := false, fileWriteOk := true }

/-- Worksheet handle present, remote calls fail, and file I-O fails too. -/
def cRemoteDownNoFile : Cfg :=
  { wsPresent := true, remoteReadOk := false, remoteWriteOk := false, fileWriteOk := false }

/-- Empty cold-start state: no sheet rows, no fallback file. -/
def stEmpty : St := { sheet := [], file := none }

/-- Fallback file holding exactly the record `m1`. -/
def stOne : St := { sheet := [], file := some (some (.arr [msgObj m1])) }

/-- Fallback file holding the records `m1` and `m2`. -/
def stTwo : St := { sheet := [], file := some (some (.arr [msgObj m1, msgObj m2])) }

/-- Fallback file whose contents parse to a JSON object, not an array. -/
def stObjFile : St := { sheet := [], file := some (some (.obj [("a", .num 1)])) }

/-- A sheet holding a stray duplicated header row, one real record, an
empty-id row and a whitespace-id row. -/
def stSheetEx : St :=
  { sheet := [ HEADER, HEADER, msgToCells (msgObj m1)
             , ["", "X", "Y", "hello", "calm", "t"]
             , ["   ", "W", "Z", "hi", "funny", "t"] ]
  , file := none }

/-- A raw sheet row carrying only an ID. -/
def rOnlyId : RawRecord :=
  { ID := some "id-9", Name := none, Recipient := none
  , Message := none, Tone := none, Timestamp := none }

/-! ### Helper lemmas -/

/-- The all-fields-present mapping that a sheet row written for `m` reads
back as. -/
def recOf (m : Message) : RawRecord :=
  { ID := some m.id, Name := some m.name, Recipient := some m.recipient
  , Message := some m.message, Tone := some m.tone, Timestamp := some m.timestamp }

theorem cells_of_msgObj (m : Message) :
    msgToCells (msgObj m) = [m.id, m.name, m.recipient, m.message, m.tone, m.timestamp] := rfl

theorem recordOfRow_cells (m : Message) :
    recordOfRow HEADER (msgToCells (msgObj m)) = recOf m := rfl

theorem rowToMessage_recOf (m : Message) : rowToMessage (recOf m) = m := rfl

theorem keepRow_recOf (m : Message) (h : goodId m = true) : keepRow (recOf m) = true := by
  simp only [goodId, Bool.and_eq_true, bne_iff_ne, ne_eq] at h
  have hne : m.id ≠ "" := fun he => h.2 (by rw [he]; decide)
  simp only [keepRow, recOf, Bool.and_eq_true, bne_iff_ne, ne_eq]
  exact ⟨⟨hne, h.1⟩, h.2⟩

theorem all_isObj (R : List Message) : (R.map msgObj).all isObj = true := by
  induction R with
  | nil => rfl
  | cons a t ih =>
    simp only [List.map_cons, List.all_cons, ih, Bool.and_true]
    rfl

theorem roundtrip_rows (R : List Message) (hR : ∀ m ∈ R, goodId m = true) :
    ((R.map recOf).filter keepRow).map (fun r => msgObj (rowToMessage r)) = R.map msgObj := by
  induction R with
  | nil => rfl
  | cons m rest ih =>
    have hk : keepRow (recOf m) = true := keepRow_recOf m (hR m (List.mem_cons_self m rest))
    have ih' := ih (fun a ha => hR a (List.mem_cons_of_mem _ ha))
    simp only [List.map_cons, List.filter_cons_of_pos hk]
    exact congrArg (List.cons _) ih'

theorem getAll_write_roundtrip (R : List Message) (hR : ∀ m ∈ R, goodId m = true) :
    ((getAllRecords (HEADER :: (R.map msgObj).map msgToCells)).filter keepRow).map
      (fun r => msgObj (rowToMessage r)) = R.map msgObj := by
  have h0 : getAllRecords (HEADER :: (R.map msgObj).map msgToCells) = R.map recOf := by
    show ((R.map msgObj).map msgToCells).map (recordOfRow HEADER) = R.map recOf
    clear hR
    induction R with
    | nil => rfl
    | cons a t ih =>
      simp only [List.map_cons]
      rw [ih]
      rfl
  rw [h0]
  exact roundtrip_rows R hR

/-- Write then read reproduces a list of well-formed records on whichever
backend the call is routed to, provided that backend's calls succeed. -/
theorem write_read_roundtrip (c : Cfg) (s : St) (R : List Message)
    (hR : ∀ m ∈ R, goodId m = true)
    (hok : (c.wsPresent = true → c.remoteWriteOk = true ∧ c.remoteReadOk = true) ∧
           (c.wsPresent = false → c.fileWriteOk = true)) :
    read_messages c (write_messages c s (R.map msgObj)) = .arr (R.map msgObj) := by
  obtain ⟨hrem, hloc⟩ := hok
  cases hws : c.wsPresent with
  | true =>
    obtain ⟨hw, hr⟩ := hrem hws
    simp only [write_messages, read_messages, hws, hw, hr, all_isObj,
               Bool.and_self, Bool.true_and, if_true]
    exact congrArg JValue.arr (getAll_write_roundtrip R hR)
  | false =>
    have hf := hloc hws
    simp [write_messages, read_messages, hws, hf]

theorem deleteFilter_cons (x : String) (m : Message) (L : List JValue) :
    deleteFilter x (msgObj m :: L) =
      (deleteFilter x L).map (fun tail => if m.id == x then tail else msgObj m :: tail) := rfl

theorem deleteFilter_map (x : String) (C : List Message) :
    deleteFilter x (C.map msgObj) =
      .ok ((C.filter (fun m => m.id != x)).map msgObj) := by
  induction C with
  | nil => rfl
  | cons m rest ih =>
    rw [List.map_cons, deleteFilter_cons, ih]
    cases hEq : (m.id == x) with
    | true => simp [Except.map, List.filter_cons, hEq, bne]
    | false => simp [Except.map, List.filter_cons, hEq, bne]

theorem deleteFilter_ok (x : String) (l : List JValue) (h : ∀ m ∈ l, isObj m = true) :
    ∃ kept, deleteFilter x l = .ok kept := by
  induction l with
  | nil => exact ⟨[], rfl⟩
  | cons m rest ih =>
    obtain ⟨kept, hk⟩ := ih (fun a ha => h a (List.mem_cons_of_mem _ ha))
    have hm := h m (List.mem_cons_self m rest)
    cases m with
    | obj fields =>
      refine ⟨if pyEqStr (jLookup (JValue.obj fields) "id") x then kept
              else JValue.obj fields :: kept, ?_⟩
      simp [deleteFilter, hk, Except.map]
    | null => simp [isObj] at hm
    | bool b => simp [isObj] at hm
    | num n => simp [isObj] at hm
    | str t => simp [isObj] at hm
    | arr a => simp [isObj] at hm

theorem keepRow_eq_spec (r : RawRecord) : keepRow r = specSheetKeep r := by
  cases hid : r.ID with
  | none => simp [keepRow, specSheetKeep, hid]
  | some s =>
    simp only [keepRow, specSheetKeep, hid, bne]
    cases h1 : (s == "ID") <;> cases h2 : (s == "") <;> cases h3 : (pyStrip s == "") <;>
      simp [h1, h2, h3]

/-- Fallback file present but unreadable or not parseable as JSON. -/
def stBadFile : St := { sheet := [], file := some none }

/-! ### Claim theorems -/

/-- Claim C1 (amended).  The claim as frozen ("each operation returns
normally for every input and every backend state") fails: a fallback file
that parses to a non-array makes `append_message` and
`delete_message_by_id` raise (see the counterexample).  Amended:
`read_messages` and `write_messages` return normally in every backend
state (they are total functions of this embedding, every exception site
of their source being wrapped in try/except), and `append_message` and
`delete_message_by_id` return normally whenever the value read from
storage is a JSON array of objects - in particular whenever the fallback
file is absent, unparseable, or holds an array of record objects, and
always on the remote read path. -/
theorem storage_ops_return_normally (c : Cfg) (s : St) (entry : JValue) (x : String)
    (l : List JValue) (hread : read_messages c s = .arr l)
    (hobj : ∀ m ∈ l, isObj m = true) :
    (∃ t, append_message c s entry = .ok t) ∧
    (∃ t, delete_message_by_id c s x = .ok t) := by
  constructor
  · exact ⟨write_messages c s (l ++ [entry]), by simp [append_message, hread]⟩
  · obtain ⟨kept, hk⟩ := deleteFilter_ok x l hobj
    exact ⟨write_messages c s kept, by simp [delete_message_by_id, hread, hk]⟩

/-- Witness for C1 (amended): on a one-record fallback file both mutating
operations return normally. -/
theorem storage_ops_return_normally_witness :
    (∃ t, append_message cLocal stOne (msgObj m2) = .ok t) ∧
    (∃ t, delete_message_by_id cLocal stOne "id-1" = .ok t) :=
  storage_ops_return_normally cLocal stOne (msgObj m2) "id-1" [msgObj m1] rfl (by decide)

/-- Counterexample to C1 as frozen: with no worksheet handle and a
fallback file whose contents parse to a JSON object, `msgs.append` in
`append_message` raises `AttributeError` across the storage boundary. -/
theorem append_raises_on_object_file :
    append_message cLocal stObjFile (msgObj m1) = .error .attributeError := rfl

/-- Claim C2 (confirmed).  Round trip: writing a well-formed record list
and reading it back returns the same records in the same order, both on
the fallback (local file) path and on the primary (sheet) path, whenever
the backend servicing the call succeeds.  Well-formed means: message
records whose ids are as generated by the program (not the literal header
value "ID" and not whitespace-only), which the sheet path's header-row
guard would otherwise drop. -/
theorem write_read_round_trip (R : List Message) (hR : ∀ m ∈ R, goodId m = true) (s : St) :
    (∀ c : Cfg, c.wsPresent = false → c.fileWriteOk = true →
        read_messages c (write_messages c s (R.map msgObj)) = .arr (R.map msgObj)) ∧
    (∀ c : Cfg, c.wsPresent = true → c.remoteWriteOk = true → c.remoteReadOk = true →
        read_messages c (write_messages c s (R.map msgObj)) = .arr (R.map msgObj)) := by
  constructor
  · intro c hws hf
    exact write_read_roundtrip c s R hR ⟨(fun h => nomatch hws.symm.trans h), fun _ => hf⟩
  · intro c hws hw hr
    exact write_read_roundtrip c s R hR ⟨fun _ => ⟨hw, hr⟩, fun h => nomatch hws.symm.trans h⟩

/-- Witness for C2: a singleton round trip on each backend. -/
theorem write_read_round_trip_witness :
    read_messages cLocal (write_messages cLocal stEmpty ([m1].map msgObj)) =
      .arr ([m1].map msgObj) ∧
    read_messages cRemote (write_messages cRemote stEmpty ([m1].map msgObj)) =
      .arr ([m1].map msgObj) :=
  ⟨(write_read_round_trip [m1] (by decide) stEmpty).1 cLocal rfl rfl,
   (write_read_round_trip [m1] (by decide) stEmpty).2 cRemote rfl rfl rfl⟩

/-- Claim C3 (confirmed).  Delete is a pure filter: on a stored collection
`C` of well-formed records, `delete_message_by_id x` returns normally and
a subsequent read returns `C` with exactly the records whose id equals `x`
removed, in their original relative order; if no record has id `x` the
collection read back is unchanged. -/
theorem delete_is_pure_filter (C : List Message) (x : String) (c : Cfg) (s : St)
    (hC : ∀ m ∈ C, goodId m = true)
    (hread : read_messages c s = .arr (C.map msgObj))
    (hok : (c.wsPresent = true → c.remoteWriteOk = true ∧ c.remoteReadOk = true) ∧
           (c.wsPresent = false → c.fileWriteOk = true)) :
    ∃ s', delete_message_by_id c s x = .ok s' ∧
      read_messages c s' = .arr ((C.filter (fun m => m.id != x)).map msgObj) ∧
      ((∀ m ∈ C, m.id ≠ x) → read_messages c s' = .arr (C.map msgObj)) := by
  refine ⟨write_messages c s ((C.filter (fun m => m.id != x)).map msgObj), ?_, ?_, ?_⟩
  · simp only [delete_message_by_id, hread, deleteFilter_map]
  · exact write_read_roundtrip c s _ (fun m hm => hC m (List.mem_of_mem_filter hm)) hok
  · intro hnone
    have hfix : C.filter (fun m => m.id != x) = C :=
      List.filter_eq_self.mpr (fun m hm => by
        simp only [bne_iff_ne, ne_eq]
        exact hnone m hm)
    rw [hfix]
    exact write_read_roundtrip c s C hC hok

/-- Witness for C3: deleting "id-1" from a two-record fallback store. -/
theorem delete_is_pure_filter_witness :
    ∃ s', delete_message_by_id cLocal stTwo "id-1" = .ok s' ∧
      read_messages cLocal s' =
        .arr (([m1, m2].filter (fun m => m.id != "id-1")).map msgObj) ∧
      ((∀ m ∈ [m1, m2], m.id ≠ "id-1") →
        read_messages cLocal s' = .arr ([m1, m2].map msgObj)) :=
  delete_is_pure_filter [m1, m2] "id-1" cLocal stTwo (by decide) rfl
    ⟨(fun h => nomatch h), fun _ => rfl⟩

/-- Claim C4 (amended).  The claim as frozen says a failing remote write
drops the data entirely ("no data is persisted anywhere"); in the source
the remote branch's exception is caught and control falls through to the
local-file write (see the counterexample).  Amended: when the worksheet
handle is present but the remote write fails, `write_messages` persists
the messages to the local fallback file instead (and leaves the sheet
alone in this model); the write is dropped entirely only when the local
file write also fails; no remote retry is attempted. -/
theorem remote_write_failure_falls_back (c : Cfg) (s : St) (msgs : List JValue)
    (h1 : c.wsPresent = true) (h2 : c.remoteWriteOk = false) :
    (c.fileWriteOk = true →
       write_messages c s msgs = { s with file := some (some (.arr msgs)) }) ∧
    (c.fileWriteOk = false → write_messages c s msgs = s) := by
  constructor <;> intro hf <;> simp [write_messages, h1, h2, hf]

/-- Witness for C4 (amended): with remote down the data lands in the
file; with the file also failing, the state is unchanged. -/
theorem remote_write_failure_falls_back_witness :
    write_messages cRemoteDown stEmpty [msgObj m1] =
      { stEmpty with file := some (some (.arr [msgObj m1])) } ∧
    write_messages cRemoteDownNoFile stEmpty [msgObj m1] = stEmpty :=
  ⟨(remote_write_failure_falls_back cRemoteDown stEmpty [msgObj m1] rfl rfl).1 rfl,
   (remote_write_failure_falls_back cRemoteDownNoFile stEmpty [msgObj m1] rfl rfl).2 rfl⟩

/-- Counterexample to C4 as frozen: worksheet handle present, remote
write failing - yet the `write_messages` call persists the record to the
local fallback file (which started absent), so data IS persisted by the
call. -/
theorem failed_remote_write_persists_locally :
    (write_messages cRemoteDown stEmpty [msgObj m1]).file =
      some (some (.arr [msgObj m1])) ∧
    stEmpty.file = none := ⟨rfl, rfl⟩

/-- Claim C5 (confirmed).  On the primary read path `read_messages`
returns exactly the fetched rows that survive the spec's skip rule -
drop a row whose ID field is the literal header value "ID" or is
empty/whitespace-only (a row with no ID field at all has an empty ID
field) - in sheet order, mapped to records.  `specSheetKeep` is the
spec-side rule; the source's guard `keepRow` agrees with it pointwise. -/
theorem sheet_read_skips (c : Cfg) (s : St)
    (h1 : c.wsPresent = true) (h2 : c.remoteReadOk = true) :
    (∀ r, keepRow r = specSheetKeep r) ∧
    read_messages c s =
      .arr (((getAllRecords s.sheet).filter specSheetKeep).map
        (fun r => msgObj (rowToMessage r))) := by
  refine ⟨keepRow_eq_spec, ?_⟩
  simp only [read_messages, h1, h2, Bool.and_self, if_true]
  rw [List.filter_congr (fun r _ => keepRow_eq_spec r)]

/-- Witness for C5: a sheet with a duplicated header row, an empty-id row
and a whitespace-id row reads back as just the one real record. -/
theorem sheet_read_skips_witness :
    read_messages cRemote stSheetEx = .arr [msgObj m1] :=
  ((sheet_read_skips cRemote stSheetEx rfl rfl).2).trans rfl

/-- Claim C6 (confirmed).  Default field substitution on read: a raw row
missing `Name` yields name "Anonymous", missing `Recipient` yields
"Anyone", and missing `Message`/`Tone`/`Timestamp` yield "". -/
theorem read_default_field_substitution (r : RawRecord) :
    (r.Name = none → (rowToMessage r).name = "Anonymous") ∧
    (r.Recipient = none → (rowToMessage r).recipient = "Anyone") ∧
    (r.Message = none → (rowToMessage r).message = "") ∧
    (r.Tone = none → (rowToMessage r).tone = "") ∧
    (r.Timestamp = none → (rowToMessage r).timestamp = "") := by
  refine ⟨fun h => ?_, fun h => ?_, fun h => ?_, fun h => ?_, fun h => ?_⟩ <;>
    simp [rowToMessage, h]

/-- Witness for C6: a row carrying only an ID gets every default. -/
theorem read_default_field_substitution_witness :
    (rowToMessage rOnlyId).name = "Anonymous" ∧
    (rowToMessage rOnlyId).recipient = "Anyone" ∧
    (rowToMessage rOnlyId).message = "" ∧
    (rowToMessage rOnlyId).tone = "" ∧
    (rowToMessage rOnlyId).timestamp = "" :=
  ⟨(read_default_field_substitution rOnlyId).1 rfl,
   (read_default_field_substitution rOnlyId).2.1 rfl,
   (read_default_field_substitution rOnlyId).2.2.1 rfl,
   (read_default_field_substitution rOnlyId).2.2.2.1 rfl,
   (read_default_field_substitution rOnlyId).2.2.2.2 rfl⟩

/-- Claim C7 (confirmed).  With no worksheet handle in use,
`read_messages` returns the empty sequence - without raising - whenever
the fallback file does not exist or exists but fails to read or parse. -/
theorem fallback_read_missing_or_bad_file (c : Cfg) (s : St)
    (h1 : c.wsPresent = false) (h2 : s.file = none ∨ s.file = some none) :
    read_messages c s = .arr [] := by
  rcases h2 with h2 | h2 <;> simp [read_messages, h1, h2]

/-- Witness for C7: both the absent-file and the unparseable-file state
read back empty. -/
theorem fallback_read_missing_or_bad_file_witness :
    read_messages cLocal stEmpty = .arr [] ∧
    read_messages cLocal stBadFile = .arr [] :=
  ⟨fallback_read_missing_or_bad_file cLocal stEmpty rfl (Or.inl rfl),
   fallback_read_missing_or_bad_file cLocal stBadFile rfl (Or.inr rfl)⟩

/-- Claim C8 (amended).  The claim as frozen ("for every record handed to
append ... ids remain pairwise distinct") fails: `append_message` appends
unconditionally, so an entry whose id is already stored produces a
duplicate (see the counterexample).  Amended: both mutating operations
preserve id-uniqueness provided the appended record's id is fresh (as a
freshly generated UUID is); `delete_message_by_id` preserves uniqueness
unconditionally, since it only removes records. -/
theorem storage_ops_preserve_id_uniqueness (C : List Message) (entry : Message) (x : String)
    (c : Cfg) (s : St)
    (hC : ∀ m ∈ C, goodId m = true) (hentry : goodId entry = true)
    (hread : read_messages c s = .arr (C.map msgObj))
    (hnodup : (C.map Message.id).Nodup)
    (hfresh : entry.id ∉ C.map Message.id)
    (hok : (c.wsPresent = true → c.remoteWriteOk = true ∧ c.remoteReadOk = true) ∧
           (c.wsPresent = false → c.fileWriteOk = true)) :
    (∃ s', append_message c s (msgObj entry) = .ok s' ∧
       read_messages c s' = .arr ((C ++ [entry]).map msgObj) ∧
       ((C ++ [entry]).map Message.id).Nodup) ∧
    (∃ s', delete_message_by_id c s x = .ok s' ∧
       read_messages c s' = .arr ((C.filter (fun m => m.id != x)).map msgObj) ∧
       ((C.filter (fun m => m.id != x)).map Message.id).Nodup) := by
  constructor
  · refine ⟨write_messages c s ((C ++ [entry]).map msgObj), ?_, ?_, ?_⟩
    · simp [append_message, hread, List.map_append]
    · refine write_read_roundtrip c s (C ++ [entry]) ?_ hok
      intro m hm
      rcases List.mem_append.mp hm with h | h
      · exact hC m h
      · rw [List.mem_singleton] at h
        subst h
        exact hentry
    · have h0 : (C.map Message.id ++ [entry.id]).Nodup := by
        rw [List.nodup_append]
        refine ⟨hnodup, List.nodup_singleton _, ?_⟩
        intro a ha hb
        rw [List.mem_singleton] at hb
        subst hb
        exact hfresh ha
      simpa [List.map_append] using h0
  · refine ⟨write_messages c s ((C.filter (fun m => m.id != x)).map msgObj), ?_, ?_, ?_⟩
    · simp only [delete_message_by_id, hread, deleteFilter_map]
    · exact write_read_roundtrip c s _ (fun m hm => hC m (List.mem_of_mem_filter hm)) hok
    · exact List.Nodup.sublist (List.Sublist.map Message.id (List.filter_sublist C)) hnodup

/-- Witness for C8 (amended): appending a fresh-id record to a one-record
store, and deleting from it, both keep ids pairwise distinct. -/
theorem storage_ops_preserve_id_uniqueness_witness :
    (∃ s', append_message cLocal stOne (msgObj m2) = .ok s' ∧
       read_messages cLocal s' = .arr (([m1] ++ [m2]).map msgObj) ∧
       (([m1] ++ [m2]).map Message.id).Nodup) ∧
    (∃ s', delete_message_by_id cLocal stOne "id-2" = .ok s' ∧
       read_messages cLocal s' =
         .arr (([m1].filter (fun m => m.id != "id-2")).map msgObj) ∧
       (([m1].filter (fun m => m.id != "id-2")).map Message.id).Nodup) :=
  storage_ops_preserve_id_uniqueness [m1] m2 "id-2" cLocal stOne (by decide) (by decide)
    rfl (by decide) (by decide) ⟨(fun h => nomatch h), fun _ => rfl⟩

/-- Counterexample to C8 as frozen: appending a record whose id equals an
already-stored id succeeds and the stored collection then holds two
records with the same id - append does not preserve uniqueness for every
handed record. -/
theorem append_duplicate_id_breaks_uniqueness :
    append_message cLocal stOne (msgObj mDup) =
      .ok { sheet := [], file := some (some (.arr [msgObj m1, msgObj mDup])) } ∧
    read_messages cLocal { sheet := [], file := some (some (.arr [msgObj m1, msgObj mDup])) } =
      .arr ([m1, mDup].map msgObj) ∧
    ¬ ([m1, mDup].map Message.id).Nodup :=
  ⟨rfl, rfl, by decide⟩

/-- Claim C9 (amended).  The claim as frozen ("grants iff the secret is
configured and k == s") fails at the boundary where the configured secret
is the empty string: the source's `if not secret` treats it as
unconfigured and rejects even a matching key (see the counterexample).
Amended: access is granted iff a secret is configured, that secret is
non-empty, and the provided key equals it by exact string comparison;
when no secret is configured - or the configured secret is empty - every
input is rejected. -/
theorem admin_key_exact_match (secrets : Option String) (k : String) :
    is_admin_key_valid secrets k = true ↔
      ∃ sec, secrets = some sec ∧ sec ≠ "" ∧ k = sec := by
  cases secrets with
  | none => simp [is_admin_key_valid, get_admin_secret]
  | some sec =>
    by_cases hs : sec = ""
    · subst hs
      simp [is_admin_key_valid, get_admin_secret]
    · simp only [is_admin_key_valid, get_admin_secret, Option.some.injEq]
      rw [if_neg (by simpa using hs)]
      constructor
      · intro h
        simp only [Bool.and_eq_true, bne_iff_ne, ne_eq, beq_iff_eq] at h
        exact ⟨sec, rfl, hs, h.2⟩
      · rintro ⟨s', hs', hne, hk⟩
        rcases hs' with rfl
        subst hk
        simp [hs]

/-- Counterexample to C9 as frozen: an empty configured secret with an
equal (empty) provided key is rejected by the source, while the spec-side
rule (`specValid`, exact equality against a configured secret) grants. -/
theorem admin_empty_secret_rejected :
    is_admin_key_valid (some "") "" = false ∧ specValid (some "") "" = true := ⟨rfl, rfl⟩

/-- Claim C10 (confirmed).  The fallback read path performs no shape
validation: a fallback file whose contents are valid JSON but not an
array of records (here a JSON object) is returned unchanged by
`read_messages`, so its result is not a sequence of message records. -/
theorem fallback_read_unvalidated :
    read_messages cLocal stObjFile = .obj [("a", .num 1)] ∧
    isArr (read_messages cLocal stObjFile) = false := ⟨rfl, rfl⟩

end GoodLuckBoard
